import Mathlib

/-!
Verification of the finance-ai message interpreter, confirmation workflow and
period aggregation engine.  The definitions below are a shallow embedding of
the Python source (`engine/parse.py`, `app.py`, `engine/data_io.py`):

* the regular-expression searches of `parse.py` are modelled by hand-written
  scanners over `List Char` that reproduce Python `re` semantics (leftmost
  match, greedy quantifiers with backtracking, word boundaries, lookarounds)
  for the concrete patterns of the source;
* Python `float` values are modelled by exact rationals (`ℚ`); every amount
  appearing in the claims is an exact decimal, so no rounding behaviour of
  binary floating point is involved in any statement;
* Python exceptions (`ValueError` from `datetime.date`, the `try/except`
  around `float`) are modelled by `Option`, `none` meaning "raises".
-/

namespace FinanceAI

/-- Digit test: the regex class `\d` as used by the source patterns. -/
def isDigitC (c : Char) : Bool := c.isDigit

/-- Whitespace test: the regex class `\s` (ASCII whitespace suffices here). -/
def isSpaceC (c : Char) : Bool := c == ' ' || c == '\t' || c == '\n' || c == '\r' || c == '\x0b' || c == '\x0c'

/-- Word-character test, the regex class `\w` restricted to the alphabet the
source deals with: ASCII alphanumerics, underscore and the accented letters of
pt-BR (Python's `\b` is Unicode-aware, so accented letters are word chars). -/
def isWordC (c : Char) : Bool :=
  c.isAlphanum || c == '_' ||
  c == 'ç' || c == 'ã' || c == 'õ' || c == 'á' || c == 'é' || c == 'í' || c == 'ó' ||
  c == 'ú' || c == 'â' || c == 'ê' || c == 'ô' || c == 'à' || c == 'ü' ||
  c == 'Ç' || c == 'Ã' || c == 'Õ' || c == 'Á' || c == 'É' || c == 'Í' || c == 'Ó' ||
  c == 'Ú' || c == 'Â' || c == 'Ê' || c == 'Ô' || c == 'À' || c == 'Ü' || c == 'º'

/-- `str.lower()` restricted to the pt-BR alphabet: ASCII lowering plus the
accented uppercase letters that can occur in the source's keyword tables. -/
def plowerChar (c : Char) : Char :=
  if c == 'Ç' then 'ç' else if c == 'Ã' then 'ã' else if c == 'Õ' then 'õ'
  else if c == 'Á' then 'á' else if c == 'É' then 'é' else if c == 'Í' then 'í'
  else if c == 'Ó' then 'ó' else if c == 'Ú' then 'ú' else if c == 'Â' then 'â'
  else if c == 'Ê' then 'ê' else if c == 'Ô' then 'ô' else if c == 'À' then 'à'
  else if c == 'Ü' then 'ü' else c.toLower

/-- `text.lower()` on a character list. -/
def low (s : List Char) : List Char := s.map plowerChar

/-- `t.replace("r$", " ")`: left-to-right, non-overlapping. -/
def replaceRS : List Char → List Char
  | 'r' :: '$' :: rest => ' ' :: replaceRS rest
  | c :: rest => c :: replaceRS rest
  | [] => []

/-- `str.strip()`. -/
def trimChars (s : List Char) : List Char :=
  (((s.dropWhile isSpaceC).reverse).dropWhile isSpaceC).reverse

/-- Does `w` occur literally at the head of `t`? -/
def startsWithL : List Char → List Char → Bool
  | [], _ => true
  | _ :: _, [] => false
  | a :: as, b :: bs => a == b && startsWithL as bs

/-- Python's `w in t`: plain substring containment. -/
def containsSub (w : List Char) : List Char → Bool
  | [] => startsWithL w []
  | c :: r => startsWithL w (c :: r) || containsSub w r

/-- Is `prev` (the char before the current position) a word character? -/
def prevNonWord : Option Char → Bool
  | none => true
  | some p => !isWordC p

/-- Is `prev` a digit?  Used for the `(?<!\d)` lookbehind. -/
def prevNonDigit : Option Char → Bool
  | none => true
  | some p => !isDigitC p

/-- `\b` after a word character: end of input or a non-word char next. -/
def boundaryAfterW (r : List Char) : Bool :=
  match r with
  | [] => true
  | x :: _ => !isWordC x

/-- Search for `\b<word>\b` in `t` (the regexes `\bhoje\b`, `\bontem\b`, …,
and the multi-word special-command phrases). -/
def containsWordGo (w : List Char) : Option Char → List Char → Bool
  | _, [] => false
  | prev, c :: r =>
    (prevNonWord prev && startsWithL w (c :: r) && boundaryAfterW ((c :: r).drop w.length))
      || containsWordGo w (some c) r

/-- `re.search(r"\b<w>\b", t) is not None` for a literal `w`. -/
def containsWord (w : List Char) (t : List Char) : Bool := containsWordGo w none t

/-- Maximal run of digits at the head: the greedy `\d+`. -/
def digitsRun : List Char → List Char × List Char
  | [] => ([], [])
  | c :: r =>
    if isDigitC c then
      let p := digitsRun r
      (c :: p.1, p.2)
    else ([], c :: r)

/-- Maximal run of whitespace at the head: the greedy `\s*` / `\s+`. -/
def spacesRun : List Char → List Char × List Char
  | [] => ([], [])
  | c :: r =>
    if isSpaceC c then
      let p := spacesRun r
      (c :: p.1, p.2)
    else ([], c :: r)

/-- Maximal run of the class `[\d\.]` at the head. -/
def dotDigitRun : List Char → List Char × List Char
  | [] => ([], [])
  | c :: r =>
    if isDigitC c || c == '.' then
      let p := dotDigitRun r
      (c :: p.1, p.2)
    else ([], c :: r)

/-- Numeric value of a digit string (`int(...)`, leading zeros allowed). -/
def natOfDigits (l : List Char) : ℕ :=
  l.foldl (fun n c => 10 * n + (c.toNat - 48)) 0

/-- Generic leftmost regex search: try a match at every position, left to
right; `prevOk` is the predicate on the preceding character imposed by the
leading `\b` or `(?<!\d)` of the pattern. -/
def searchGo {α : Type} (prevOk : Option Char → Bool) (matchAt : List Char → Option α) :
    Option Char → List Char → Option α
  | _, [] => none
  | prev, c :: r =>
    match (if prevOk prev then matchAt (c :: r) else none) with
    | some a => some a
    | none => searchGo prevOk matchAt (some c) r

/-- Exactly `n` digits at the head (the bounded `\d{n}`). -/
def takeDigitsN : ℕ → List Char → Option (List Char × List Char)
  | 0, l => some ([], l)
  | _ + 1, [] => none
  | n + 1, c :: r =>
    if isDigitC c then (takeDigitsN n r).map (fun p => (c :: p.1, p.2)) else none

/-- `float(...)` on the normalized numeric strings produced by the source:
digits, optionally a single `.` and more digits; anything else raises
(`none`).  The exact decimal value is returned as a `(numerator, denominator)`
pair of naturals (the denominator a power of ten), so that the scanner
pipeline stays kernel-computable; `ratOfParts` turns it into the `ℚ` value. -/
def pyFloatP (l : List Char) : Option (ℕ × ℕ) :=
  let ip := digitsRun l
  match ip.2 with
  | [] => if ip.1 = [] then none else some (natOfDigits ip.1, 1)
  | '.' :: r2 =>
    let fp := digitsRun r2
    if fp.2 = [] && !(ip.1 = [] && fp.1 = []) then
      some (natOfDigits ip.1 * 10 ^ fp.1.length + natOfDigits fp.1, 10 ^ fp.1.length)
    else none
  | _ => none

/-- The rational value of a `(numerator, denominator)` pair. -/
def ratOfParts (p : ℕ × ℕ) : ℚ := (p.1 : ℚ) / (p.2 : ℚ)

/-- `num.replace('.', '').replace(',', '.')`: the Brazilian-convention
normalization of the source (strip `.` grouping, `,` becomes the decimal
point). -/
def brNorm (l : List Char) : List Char :=
  (l.filter (fun c => c != '.')).map (fun c => if c == ',' then '.' else c)

/-- Match `(\d+(?:[\.,]\d+)?)\s*k\b` at the current position (the leading `\b`
is checked by the caller); returns the captured numeric token. -/
def matchKAt (l : List Char) : Option (List Char) :=
  let d1 := digitsRun l
  if d1.1 = [] then none
  else
    let tk : List Char × List Char :=
      match d1.2 with
      | c :: c2 :: rest =>
        if (c == '.' || c == ',') && isDigitC c2 then
          let f := digitsRun (c2 :: rest)
          (d1.1 ++ c :: f.1, f.2)
        else (d1.1, d1.2)
      | _ => (d1.1, d1.2)
    let sp := spacesRun tk.2
    match sp.2 with
    | 'k' :: rest => if boundaryAfterW rest then some tk.1 else none
    | _ => none

/-- Match `(\d+(?:[\.,]\d+)?)\s*mil\b` at the current position. -/
def matchMilAt (l : List Char) : Option (List Char) :=
  let d1 := digitsRun l
  if d1.1 = [] then none
  else
    let tk : List Char × List Char :=
      match d1.2 with
      | c :: c2 :: rest =>
        if (c == '.' || c == ',') && isDigitC c2 then
          let f := digitsRun (c2 :: rest)
          (d1.1 ++ c :: f.1, f.2)
        else (d1.1, d1.2)
      | _ => (d1.1, d1.2)
    let sp := spacesRun tk.2
    match sp.2 with
    | 'm' :: 'i' :: 'l' :: rest => if boundaryAfterW rest then some tk.1 else none
    | _ => none

/-- Second alternative `\d+` of `DECIMAL_RE` (with its trailing `(?!\d)`,
automatically satisfied by taking the maximal run). -/
def decAlt2 (l : List Char) : Option (List Char) :=
  let ds := digitsRun l
  if ds.1 = [] then none else some ds.1

/-- Body of `DECIMAL_RE`: `([\d\.]+\,\d{1,2}|\d+)(?!\d)`.  The first
alternative can only succeed with the maximal `[\d\.]` run (a shorter run is
followed by a `[\d\.]` character, never by `,`), and its fraction takes two
digits when a third digit does not follow, else one digit when a second does
not follow, else the alternative fails and `\d+` is tried. -/
def matchDecBody (l : List Char) : Option (List Char) :=
  let run := dotDigitRun l
  if run.1 = [] then none
  else
    match run.2 with
    | ',' :: rest =>
      (match rest with
       | d1 :: rest1 =>
         if isDigitC d1 then
           match rest1 with
           | d2 :: rest2 =>
             if isDigitC d2 then
               match rest2 with
               | d3 :: _ => if isDigitC d3 then decAlt2 l else some (run.1 ++ ',' :: d1 :: [d2])
               | [] => some (run.1 ++ ',' :: d1 :: [d2])
             else some (run.1 ++ [',', d1])
           | [] => some (run.1 ++ [',', d1])
         else decAlt2 l
       | [] => decAlt2 l)
    | _ => decAlt2 l

/-- `DECIMAL_RE` at a position: optional `(?:r\$\s*)?` prefix (greedy, tried
first), then the body.  The `(?<!\d)` lookbehind is checked by the caller. -/
def matchDecAt (l : List Char) : Option (List Char) :=
  match l with
  | 'r' :: '$' :: rest =>
    let sp := spacesRun rest
    match matchDecBody sp.2 with
    | some g => some g
    | none => matchDecBody l
  | _ => matchDecBody l

/-- `re.search` for the `k` shorthand pattern. -/
def searchK (t : List Char) : Option (List Char) := searchGo prevNonWord matchKAt none t

/-- `re.search` for the `mil` shorthand pattern. -/
def searchMil (t : List Char) : Option (List Char) := searchGo prevNonWord matchMilAt none t

/-- `DECIMAL_RE.search`. -/
def searchDec (t : List Char) : Option (List Char) := searchGo prevNonDigit matchDecAt none t

/-- The plain-decimal step of `_parse_valor` (after both shorthand patterns
failed): search `DECIMAL_RE`, normalize comma/dots, parse. -/
def parseValorDecP (t : List Char) : Option (ℕ × ℕ) :=
  match searchDec t with
  | none => none
  | some raw =>
    let raw2 := if raw.contains ',' then brNorm raw else raw
    match pyFloatP raw2 with
    | some p => some p
    | none => none

/-- The `mil` step of `_parse_valor`; multiplication by 1000 acts on the
numerator, and its `except: pass` falls through to the decimal step. -/
def parseValorMilP (t : List Char) : Option (ℕ × ℕ) :=
  match searchMil t with
  | some g =>
    match pyFloatP (brNorm g) with
    | some p => some (p.1 * 1000, p.2)
    | none => parseValorDecP t
  | none => parseValorDecP t

/-- `_parse_valor(texto)` from `engine/parse.py` at the parts level:
lowercase, replace `r$` by a space, then `k` shorthand, `mil` shorthand,
plain decimal, in that order. -/
def parseValorP (s : List Char) : Option (ℕ × ℕ) :=
  let t := replaceRS (low s)
  match searchK t with
  | some g =>
    match pyFloatP (brNorm g) with
    | some p => some (p.1 * 1000, p.2)
    | none => parseValorMilP t
  | none => parseValorMilP t

/-- `_parse_valor` with its rational result. -/
def parseValorChars (s : List Char) : Option ℚ := (parseValorP s).map ratOfParts

/-- String-level wrapper for `_parse_valor` (the spec's `extract_amount`). -/
def parse_valor (s : String) : Option ℚ := parseValorChars s.data

example : parseValorP "37,90".data = some (3790, 100) := by decide
example : parseValorP "R$ 1.234,56".data = some (123456, 100) := by decide
example : parseValorP "5k".data = some (5000, 1) := by decide
example : parseValorP "1,5 mil".data = some (15000, 10) := by decide
example : parseValorP "gastei 32,50 no mercado".data = some (3250, 100) := by decide
example : parse_valor "nada aqui" = none := by decide
example : parse_valor "37,90" = some (379 / 10) := by
  have h : parseValorP "37,90".data = some (3790, 100) := by decide
  simp [parse_valor, parseValorChars, h, ratOfParts]
  norm_num

/-! ## Dates and `_parse_data` -/

/-- A calendar date, mirroring `datetime.date` (year 1..9999). -/
structure Date where
  year : ℕ
  month : ℕ
  day : ℕ
  deriving DecidableEq, Repr

/-- The Gregorian leap-year rule used by `datetime.date`. -/
def isLeap (y : ℕ) : Bool := (y % 4 == 0 && y % 100 != 0) || y % 400 == 0

/-- Number of days of month `m` in year `y`. -/
def daysInMonth (y m : ℕ) : ℕ :=
  if m == 2 then (if isLeap y then 29 else 28)
  else if m == 4 || m == 6 || m == 9 || m == 11 then 30
  else 31

/-- `datetime.date(y, m, d)`: `none` models the `ValueError` raised on an
out-of-range component. -/
def pyDate (y m d : ℕ) : Option Date :=
  if 1 ≤ y ∧ y ≤ 9999 ∧ 1 ≤ m ∧ m ≤ 12 ∧ 1 ≤ d ∧ d ≤ daysInMonth y m then
    some ⟨y, m, d⟩
  else none

/-- `d + timedelta(days=1)` on a valid date. -/
def nextDay (d : Date) : Date :=
  if d.day < daysInMonth d.year d.month then ⟨d.year, d.month, d.day + 1⟩
  else if d.month < 12 then ⟨d.year, d.month + 1, 1⟩
  else ⟨d.year + 1, 1, 1⟩

/-- `d - timedelta(days=1)` on a valid date. -/
def prevDay (d : Date) : Date :=
  if 1 < d.day then ⟨d.year, d.month, d.day - 1⟩
  else if 1 < d.month then ⟨d.year, d.month - 1, daysInMonth d.year (d.month - 1)⟩
  else ⟨d.year - 1, 12, 31⟩

/-- Exactly `n` digits followed by a word boundary; the value (for the year of
the slash form, and the day of the `dia D` form). -/
def digitsThenBoundary (n : ℕ) (r : List Char) : Option ℕ :=
  match takeDigitsN n r with
  | some p => if boundaryAfterW p.2 then some (natOfDigits p.1) else none
  | none => none

/-- The optional `(?:\/(\d{2,4}))?\b` tail of `DATE_SLASH_RE` after the month:
greedy, so the year (4, then 3, then 2 digits) is tried before the
group-omitted reading. -/
def slashMonthTry (n : ℕ) (d : ℕ) (r : List Char) : Option (ℕ × ℕ × Option ℕ) :=
  match takeDigitsN n r with
  | some p =>
    let mo := natOfDigits p.1
    let withYear : Option ℕ :=
      match p.2 with
      | '/' :: r3 =>
        (digitsThenBoundary 4 r3).orElse fun _ =>
          (digitsThenBoundary 3 r3).orElse fun _ => digitsThenBoundary 2 r3
      | _ => none
    match withYear with
    | some y => some (d, mo, some y)
    | none => if boundaryAfterW p.2 then some (d, mo, none) else none
  | none => none

/-- The day part `(\d{1,2})\/` of `DATE_SLASH_RE` with `n` digits taken. -/
def slashDayTry (n : ℕ) (l : List Char) : Option (ℕ × ℕ × Option ℕ) :=
  match takeDigitsN n l with
  | some p =>
    match p.2 with
    | '/' :: r2 =>
      (slashMonthTry 2 (natOfDigits p.1) r2).orElse fun _ =>
        slashMonthTry 1 (natOfDigits p.1) r2
    | _ => none
  | none => none

/-- `DATE_SLASH_RE` = `\b(\d{1,2})\/(\d{1,2})(?:\/(\d{2,4}))?\b` at one
position (day taken greedily: two digits, then one). -/
def matchSlashAt (l : List Char) : Option (ℕ × ℕ × Option ℕ) :=
  (slashDayTry 2 l).orElse fun _ => slashDayTry 1 l

/-- `DATE_SLASH_RE.search`. -/
def searchSlash (t : List Char) : Option (ℕ × ℕ × Option ℕ) :=
  searchGo prevNonWord matchSlashAt none t

/-- `DAY_ONLY_RE` = `\bdia\s+(\d{1,2})\b` at one position. -/
def matchDiaAt (l : List Char) : Option ℕ :=
  match l with
  | 'd' :: 'i' :: 'a' :: r1 =>
    let sp := spacesRun r1
    if sp.1 = [] then none
    else (digitsThenBoundary 2 sp.2).orElse fun _ => digitsThenBoundary 1 sp.2
  | _ => none

/-- `DAY_ONLY_RE.search`. -/
def searchDia (t : List Char) : Option ℕ := searchGo prevNonWord matchDiaAt none t

/-- Maximal run of the month-name class `[a-zçãéô]` at the head. -/
def mnameRun : List Char → List Char × List Char
  | [] => ([], [])
  | c :: r =>
    if ('a' ≤ c && c ≤ 'z') || c == 'ç' || c == 'ã' || c == 'é' || c == 'ô' then
      let p := mnameRun r
      (c :: p.1, p.2)
    else ([], c :: r)

/-- The optional `(?:\s+de\s+(\d{4}))?` year tail of `MESES_RE`. -/
def mesYearTry (r : List Char) : Option ℕ :=
  let sp3 := spacesRun r
  if sp3.1 = [] then none
  else
    match sp3.2 with
    | 'd' :: 'e' :: r7 =>
      let sp4 := spacesRun r7
      if sp4.1 = [] then none
      else
        match takeDigitsN 4 sp4.2 with
        | some p => if boundaryAfterW p.2 then some (natOfDigits p.1) else none
        | none => none
    | _ => none

/-- The body of `MESES_RE` after the day digits were taken. -/
def mesAfterDay (ds : List Char) (r1 : List Char) : Option (ℕ × List Char × Option ℕ) :=
  let sp1 := spacesRun r1
  if sp1.1 = [] then none
  else
    match sp1.2 with
    | 'd' :: 'e' :: r3 =>
      let sp2 := spacesRun r3
      if sp2.1 = [] then none
      else
        let nm := mnameRun sp2.2
        if nm.1 = [] then none
        else
          match mesYearTry nm.2 with
          | some y => some (natOfDigits ds, nm.1, some y)
          | none => if boundaryAfterW nm.2 then some (natOfDigits ds, nm.1, none) else none
    | _ => none

/-- `MESES_RE` = `\b(\d{1,2})\s+de\s+([a-zçãéô]+)(?:\s+de\s+(\d{4}))?\b` at
one position. -/
def matchMesAt (l : List Char) : Option (ℕ × List Char × Option ℕ) :=
  (match takeDigitsN 2 l with
   | some p => mesAfterDay p.1 p.2
   | none => none).orElse fun _ =>
    match takeDigitsN 1 l with
    | some p => mesAfterDay p.1 p.2
    | none => none

/-- `MESES_RE.search`. -/
def searchMeses (t : List Char) : Option (ℕ × List Char × Option ℕ) :=
  searchGo prevNonWord matchMesAt none t

/-- The `MESES` month-name table of `engine/parse.py`, in insertion order. -/
def MESES : List (List Char × ℕ) :=
  [("jan".data, 1), ("janeiro".data, 1), ("fev".data, 2), ("fevereiro".data, 2),
   ("mar".data, 3), ("março".data, 3), ("marco".data, 3), ("abr".data, 4),
   ("abril".data, 4), ("mai".data, 5), ("maio".data, 5), ("jun".data, 6),
   ("junho".data, 6), ("jul".data, 7), ("julho".data, 7), ("ago".data, 8),
   ("agosto".data, 8), ("set".data, 9), ("setembro".data, 9), ("out".data, 10),
   ("outubro".data, 10), ("nov".data, 11), ("novembro".data, 11), ("dez".data, 12),
   ("dezembro".data, 12)]

/-- `MESES.get(nome)`. -/
def mesesGet (nm : List Char) : Option ℕ := (MESES.find? (fun p => p.1 == nm)).map (·.2)

/-- Does the text contain one of the relative-date keywords
(`\bhoje\b`, `\bontem\b`, `\banteontem\b`, `\bamanh[ãa]\b`)? -/
def hasRelative (t : List Char) : Bool :=
  containsWord "hoje".data t || containsWord "ontem".data t ||
  containsWord "anteontem".data t || containsWord "amanhã".data t ||
  containsWord "amanha".data t

/-- The year used by the slash form: missing year defaults to `hoje.year`,
two-digit years are normalized to `2000 + yy`. -/
def slashYear (hoje : Date) (oy : Option ℕ) : ℕ :=
  match oy with
  | none => hoje.year
  | some yy => if yy < 100 then yy + 2000 else yy

/-- `_parse_data(texto, hoje)` from `engine/parse.py`.  `none` models the
`ValueError` raised by `datetime.date` on a calendar-invalid combination. -/
def parseDataChars (s : List Char) (hoje : Date) : Option Date :=
  let t := low s
  if containsWord "hoje".data t then some hoje
  else if containsWord "ontem".data t then some (prevDay hoje)
  else if containsWord "anteontem".data t then some (prevDay (prevDay hoje))
  else if containsWord "amanhã".data t || containsWord "amanha".data t then some (nextDay hoje)
  else
    match searchSlash t with
    | some (d, mo, oy) => pyDate (slashYear hoje oy) mo d
    | none =>
      match searchDia t with
      | some d => pyDate hoje.year hoje.month d
      | none =>
        match searchMeses t with
        | some (d, nome, oy) =>
          match mesesGet nome with
          | some mo => pyDate (match oy with | some yy => yy | none => hoje.year) mo d
          | none => some hoje
        | none => some hoje

/-- String-level wrapper for `_parse_data` (the spec's `resolve_date`). -/
def parse_data (s : String) (hoje : Date) : Option Date := parseDataChars s.data hoje

/-- No date rule of `_parse_data` fires on `s`: no relative keyword, no slash
match, no `dia D` match, and any month-name match carries a name outside the
`MESES` table (the source then falls through to `hoje` as well). -/
def noDateRuleMatch (s : List Char) : Bool :=
  let t := low s
  !hasRelative t && (searchSlash t).isNone && (searchDia t).isNone &&
    (match searchMeses t with
     | none => true
     | some (_, nome, _) => (mesesGet nome).isNone)

example : parse_data "gastei 10 ontem" ⟨2024, 3, 15⟩ = some ⟨2024, 3, 14⟩ := by decide
example : parse_data "dia 5" ⟨2024, 3, 15⟩ = some ⟨2024, 3, 5⟩ := by decide
example : parse_data "15 de março de 2023" ⟨2024, 3, 15⟩ = some ⟨2023, 3, 15⟩ := by decide
example : parse_data "05/08/24" ⟨2024, 3, 15⟩ = some ⟨2024, 8, 5⟩ := by decide
example : parse_data "recebi 1500 de salário 05/08" ⟨2024, 3, 15⟩ = some ⟨2024, 8, 5⟩ := by decide
example : parse_data "31/02" ⟨2024, 3, 15⟩ = none := by decide
example : parse_data "sem data nenhuma" ⟨2024, 3, 15⟩ = some ⟨2024, 3, 15⟩ := by decide
example : parse_data "amanhã" ⟨2024, 12, 31⟩ = some ⟨2025, 1, 1⟩ := by decide
example : parse_data "anteontem" ⟨2024, 3, 1⟩ = some ⟨2024, 2, 28⟩ := by decide

/-! ## `_detect_tipo` and `_detect_categoria` -/

/-- The three transaction types of the source (`"gasto"`, `"ganho"`,
`"investimento"`). -/
inductive Tipo
  | gasto
  | ganho
  | investimento
  deriving DecidableEq, Repr

/-- `VERBOS_GASTO`. -/
def VERBOS_GASTO : List (List Char) :=
  ["gastei".data, "paguei".data, "pagar".data, "comprei".data, "comprar".data,
   "saquei".data, "retirei".data, "retiro".data]

/-- `VERBOS_GANHO`. -/
def VERBOS_GANHO : List (List Char) :=
  ["recebi".data, "ganhei".data, "entrou".data, "caiu".data, "depositaram".data,
   "pague".data, "pagaram".data]

/-- `VERBOS_INVEST`. -/
def VERBOS_INVEST : List (List Char) :=
  ["investi".data, "apliquei".data, "aportei".data, "aportar".data,
   "comprar ações".data, "comprei ações".data, "apliquei em".data]

/-- `any(w in tl for w in vs)`. -/
def hasAnyVerb (vs : List (List Char)) (t : List Char) : Bool :=
  vs.any fun w => containsSub w t

/-- Can `r` (what follows a `-`) start with `\s?\d`? -/
def minusDigitAfter : List Char → Bool
  | c :: rest =>
    isDigitC c || (isSpaceC c && (match rest with | d :: _ => isDigitC d | [] => false))
  | [] => false

/-- `re.search(r"\-\s?\d", tl) is not None`. -/
def minusDigit : List Char → Bool
  | [] => false
  | c :: r => (c == '-' && minusDigitAfter r) || minusDigit r

/-- `_detect_tipo(t)` from `engine/parse.py`. -/
def detectTipoChars (s : List Char) : Tipo :=
  let tl := low s
  if hasAnyVerb VERBOS_GASTO tl then .gasto
  else if hasAnyVerb VERBOS_GANHO tl then .ganho
  else if hasAnyVerb VERBOS_INVEST tl then .investimento
  else if minusDigit tl then .gasto
  else .ganho

/-- String-level wrapper for `_detect_tipo` (the spec's `classify_type`). -/
def detect_tipo (s : String) : Tipo := detectTipoChars s.data

/-- `CATEGORIAS_GASTOS`, in insertion order. -/
def CATEGORIAS_GASTOS : List (List Char × String) :=
  [("mercado".data, "Mercado"), ("supermercado".data, "Mercado"), ("feira".data, "Mercado"),
   ("restaurante".data, "Alimentação Fora"), ("lanche".data, "Alimentação Fora"),
   ("pizza".data, "Alimentação Fora"), ("ifood".data, "Alimentação Fora"),
   ("ubereats".data, "Alimentação Fora"),
   ("aluguel".data, "Moradia"), ("condominio".data, "Moradia"), ("condomínio".data, "Moradia"),
   ("luz".data, "Contas"), ("energia".data, "Contas"), ("água".data, "Contas"),
   ("agua".data, "Contas"), ("gás".data, "Contas"), ("gas".data, "Contas"),
   ("internet".data, "Contas"), ("telefone".data, "Contas"), ("celular".data, "Contas"),
   ("transporte".data, "Transporte"), ("uber".data, "Transporte"), ("99".data, "Transporte"),
   ("taxi".data, "Transporte"), ("táxi".data, "Transporte"), ("gasolina".data, "Transporte"),
   ("combustível".data, "Transporte"), ("combustivel".data, "Transporte"),
   ("estacionamento".data, "Transporte"),
   ("farmácia".data, "Saúde"), ("farmacia".data, "Saúde"),
   ("plano de saúde".data, "Saúde"), ("dentista".data, "Saúde"),
   ("curso".data, "Educação"), ("faculdade".data, "Educação"), ("escola".data, "Educação"),
   ("livro".data, "Educação"),
   ("cinema".data, "Lazer"), ("show".data, "Lazer"), ("viagem".data, "Viagens"),
   ("hotel".data, "Viagens"), ("passagem".data, "Viagens"),
   ("mercado livre".data, "Casa"), ("magalu".data, "Casa"), ("amazon".data, "Casa"),
   ("mobiliário".data, "Casa"), ("mobiliario".data, "Casa"),
   ("roupa".data, "Pessoais"), ("roupas".data, "Pessoais"), ("sapato".data, "Pessoais"),
   ("barbearia".data, "Pessoais"),
   ("imposto".data, "Impostos"), ("taxa".data, "Taxas"), ("banco".data, "Taxas"),
   ("tarifa".data, "Taxas")]

/-- `CATEGORIAS_GANHOS`, in insertion order. -/
def CATEGORIAS_GANHOS : List (List Char × String) :=
  [("salário".data, "Salário"), ("salario".data, "Salário"), ("13º".data, "Salário"),
   ("férias".data, "Salário"), ("ferias".data, "Salário"),
   ("freela".data, "Freelance"), ("freelancer".data, "Freelance"), ("bico".data, "Freelance"),
   ("bônus".data, "Bônus"), ("bonus".data, "Bônus"),
   ("comissão".data, "Comissões"), ("comissao".data, "Comissões"),
   ("aluguel recebido".data, "Aluguel"), ("aluguel".data, "Aluguel"),
   ("venda".data, "Venda de Itens"), ("vendi".data, "Venda de Itens"),
   ("juros".data, "Rendimentos"), ("rendimentos".data, "Rendimentos"),
   ("dividendos".data, "Rendimentos"),
   ("presente".data, "Presentes/Doações"), ("presente recebido".data, "Presentes/Doações"),
   ("doação".data, "Presentes/Doações"), ("doacao".data, "Presentes/Doações"),
   ("prêmio".data, "Prêmios"), ("premio".data, "Prêmios")]

/-- `CATEGORIAS_INVEST`, in insertion order. -/
def CATEGORIAS_INVEST : List (List Char × String) :=
  [("cdb".data, "CDB"), ("tesouro".data, "Tesouro"), ("poupança".data, "Poupança"),
   ("poupanca".data, "Poupança"), ("fundo".data, "Fundos"), ("fii".data, "Fundos Imobiliários"),
   ("ações".data, "Ações"), ("acoes".data, "Ações"), ("acao".data, "Ações"),
   ("pix".data, "Reserva/Pix"), ("cripto".data, "Cripto"), ("bitcoin".data, "Cripto")]

/-- First-substring-match lookup in a keyword table, in table order. -/
def lookupSub (tbl : List (List Char × String)) (tl : List Char) : Option String :=
  match tbl with
  | [] => none
  | (k, v) :: r => if containsSub k tl then some v else lookupSub r tl

/-- Insert one key of a `{**a, **b}` merge: a duplicate key keeps its first
position but takes the later value, as Python dict merging does. -/
def updOrAppend (l : List (List Char × String)) (k : List Char) (v : String) :
    List (List Char × String) :=
  match l with
  | [] => [(k, v)]
  | (k', v') :: r => if k' == k then (k', v) :: r else (k', v') :: updOrAppend r k v

/-- `{**a, **b}`. -/
def mergeTables (a b : List (List Char × String)) : List (List Char × String) :=
  b.foldl (fun acc p => updOrAppend acc p.1 p.2) a

/-- `{**CATEGORIAS_GASTOS, **CATEGORIAS_GANHOS, **CATEGORIAS_INVEST}`. -/
def UNION_TABLE : List (List Char × String) :=
  mergeTables (mergeTables CATEGORIAS_GASTOS CATEGORIAS_GANHOS) CATEGORIAS_INVEST

/-- The keyword table consulted first for each classified type. -/
def tableOf : Tipo → List (List Char × String)
  | .gasto => CATEGORIAS_GASTOS
  | .ganho => CATEGORIAS_GANHOS
  | .investimento => CATEGORIAS_INVEST

/-- `_detect_categoria(t, tipo)` from `engine/parse.py`: type table first,
then the union of the three tables, then the sentinel `"outros"`. -/
def detectCategoriaChars (s : List Char) (tipo : Tipo) : String :=
  let tl := low s
  match lookupSub (tableOf tipo) tl with
  | some v => v
  | none =>
    match lookupSub UNION_TABLE tl with
    | some v => v
    | none => "outros"

/-- String-level wrapper for `_detect_categoria` (the spec's `map_category`). -/
def map_category (s : String) (tipo : Tipo) : String := detectCategoriaChars s.data tipo

example : detect_tipo "gastei 37,90 no mercado ontem" = .gasto := by decide
example : detect_tipo "recebi 1500 de salário" = .ganho := by decide
example : detect_tipo "apliquei 200 em cdb" = .investimento := by decide
example : detect_tipo "- 50 padaria" = .gasto := by decide
example : detect_tipo "50 padaria" = .ganho := by decide
example : map_category "gastei 37,90 no supermercado" .gasto = "Mercado" := by decide
example : map_category "recebi 50 no mercado" .ganho = "Mercado" := by decide
example : map_category "zzz" .gasto = "outros" := by decide
example : map_category "investi 200 em cdb" .investimento = "CDB" := by decide

/-! ## `parse_message` and the chat workflow of `app.py` -/

/-- The `Parsed` dataclass of `engine/parse.py` (and the `pending_tx` dict of
`app.py`, whose fields are exactly these). -/
structure Parsed where
  data : Date
  tipo : Tipo
  value : Option ℚ
  categoria : String
  descricao : List Char
  deriving DecidableEq

/-- `parse_message(texto)` from `engine/parse.py`, with the reference date of
`_parse_data` made explicit; `none` models the `ValueError` that
`_parse_data` propagates. -/
def parseMessageChars (s : List Char) (today : Date) : Option Parsed :=
  match parseDataChars s today with
  | none => none
  | some d =>
    some ⟨d, detectTipoChars s, parseValorChars s, detectCategoriaChars s (detectTipoChars s),
      trimChars s⟩

/-- String-level wrapper for `parse_message`. -/
def parse_message (s : String) (today : Date) : Option Parsed := parseMessageChars s.data today

/-- Chronological order on dates (lexicographic on year, month, day); this is
how `pandas` timestamps built from valid dates compare. -/
def dateLe (a b : Date) : Prop :=
  a.year < b.year ∨ (a.year = b.year ∧ (a.month < b.month ∨ (a.month = b.month ∧ a.day ≤ b.day)))

instance : DecidableRel dateLe := fun a b => by unfold dateLe; infer_instance

theorem dateLe_refl (a : Date) : dateLe a a := by simp [dateLe]

theorem dateLe_trans {a b c : Date} (h1 : dateLe a b) (h2 : dateLe b c) : dateLe a c := by
  rcases h1 with h1 | ⟨e1, h1⟩ <;> rcases h2 with h2 | ⟨e2, h2⟩
  · exact Or.inl (h1.trans h2)
  · exact Or.inl (e2 ▸ h1)
  · exact Or.inl (e1 ▸ h2)
  · refine Or.inr ⟨e1.trans e2, ?_⟩
    rcases h1 with h1 | ⟨f1, h1⟩ <;> rcases h2 with h2 | ⟨f2, h2⟩
    · exact Or.inl (h1.trans h2)
    · exact Or.inl (f2 ▸ h1)
    · exact Or.inl (f1 ▸ h2)
    · exact Or.inr ⟨f1.trans f2, h1.trans h2⟩

theorem dateLe_total (a b : Date) : dateLe a b ∨ dateLe b a := by
  unfold dateLe; omega

/-- Order on parsed rows by transaction date, the key of the `sort_values` /
`order("data")` steps of `app.py` and `engine/data_io.py`. -/
def parsedLe (a b : Parsed) : Prop := dateLe a.data b.data

instance : DecidableRel parsedLe := fun a b => by unfold parsedLe; infer_instance

instance : IsTotal Parsed parsedLe := ⟨fun a b => dateLe_total a.data b.data⟩

instance : IsTrans Parsed parsedLe := ⟨fun _ _ _ h1 h2 => dateLe_trans h1 h2⟩

/-- `_undo_last` of `app.py` on the committed rows: `data_io.load()` returns
the rows ordered by date, and `save(df.iloc[:-1])` rewrites the store without
the LAST ROW of that date-ordered frame.  Empty store: reported no-op. -/
def undoStore (l : List Parsed) : List Parsed :=
  if l = [] then l else (List.insertionSort parsedLe l).dropLast

/-- The per-session state of the chat handler: `st.session_state.pending_tx`
and the committed rows of the current owner. -/
structure ChatState where
  pending : Option Parsed
  store : List Parsed

/-- The inputs the chat handler reacts to: a submitted free-text message, the
Confirmar button, the Cancelar button. -/
inductive Act
  | msg (s : List Char)
  | confirm
  | cancel

/-- `_handle_special_commands` of `app.py`: does one of its four fixed phrase
patterns match? -/
def isSpecialCmd (s : List Char) : Bool :=
  let t := trimChars (low s)
  containsWord "resumo da semana".data t ||
  (containsWord "resumo do mês".data t || containsWord "resumo deste mês".data t) ||
  (containsWord "saldo de hoje".data t || containsWord "resumo de hoje".data t) ||
  (containsWord "desfazer último".data t || containsWord "desfazer ultima".data t ||
    containsWord "desfazer última".data t)

/-- Does `_handle_special_commands` reach its `desfazer` branch (no earlier
pattern matched, and one of the three undo spellings does)? -/
def isUndoCmd (s : List Char) : Bool :=
  let t := trimChars (low s)
  !containsWord "resumo da semana".data t &&
  !(containsWord "resumo do mês".data t || containsWord "resumo deste mês".data t) &&
  !(containsWord "saldo de hoje".data t || containsWord "resumo de hoje".data t) &&
  (containsWord "desfazer último".data t || containsWord "desfazer ultima".data t ||
    containsWord "desfazer última".data t)

/-- One step of the chat submit handler of `app.py` (lines 281–330): the
Confirmar button appends the pending candidate and clears it, Cancelar clears
it, a special command leaves the pending candidate alone (the undo command
rewrites the store), and an ordinary message is interpreted — a `None` amount
only emits a notice, otherwise `st.session_state.pending_tx` is assigned the
new candidate. -/
def stepA (today : Date) (st : ChatState) : Act → ChatState
  | .confirm =>
    match st.pending with
    | some c => ⟨none, st.store ++ [c]⟩
    | none => st
  | .cancel =>
    match st.pending with
    | some _ => ⟨none, st.store⟩
    | none => st
  | .msg s =>
    if s = [] then st
    else if isSpecialCmd s then
      if isUndoCmd s then ⟨st.pending, undoStore st.store⟩ else st
    else
      match parseMessageChars s today with
      | none => st
      | some P => if P.value = none then st else ⟨some P, st.store⟩

/-- The states of one session reachable from the initial state (no pending
candidate, nothing committed in this session). -/
inductive Reachable (today : Date) : ChatState → Prop
  | init : Reachable today ⟨none, []⟩
  | step {st : ChatState} (a : Act) : Reachable today st → Reachable today (stepA today st a)

/-! ## The persisted rows, `_undo_last`/`delete_last`, KPIs, top-N -/

/-- A committed transaction row as stored by the persistence layer
(`engine/data_io.py`): transaction date, type string, amount, category, and
the `created_at` insertion timestamp. -/
structure Tx where
  data : Date
  tipo : String
  valor : ℚ
  categoria : String
  createdAt : ℕ
  deriving DecidableEq

/-- Order on stored rows by transaction date (`q.order("data", desc=False)` in
`data_io.load`). -/
def txLe (a b : Tx) : Prop := dateLe a.data b.data

instance : DecidableRel txLe := fun a b => by unfold txLe; infer_instance

instance : IsTotal Tx txLe := ⟨fun a b => dateLe_total a.data b.data⟩

instance : IsTrans Tx txLe := ⟨fun _ _ _ h1 h2 => dateLe_trans h1 h2⟩

/-- `data_io.load()`: the stored rows of the owner ordered by `data`
ascending (a stable sort of the store, whose own order is insertion order). -/
def loadStore (l : List Tx) : List Tx := List.insertionSort txLe l

/-- `_undo_last()` of `app.py` (lines 185–190): load the date-ordered frame;
if it is empty report "nothing to undo" (`false`, no deletion, no error), else
save it without its last row (`df.iloc[:-1]`). -/
def undo_last (l : List Tx) : List Tx × Bool :=
  if l = [] then (l, false) else ((loadStore l).dropLast, true)

/-- Inclusive period membership: `DF_now["data"].between(start, end)` in
`app.py` line 338. -/
def inPeriod (s e : Date) (x : Tx) : Bool :=
  decide (dateLe s x.data) && decide (dateLe x.data e)

/-- The `cur` frame of `app.py`: history filtered to the period. -/
def curTx (h : List Tx) (s e : Date) : List Tx := h.filter (inPeriod s e)

/-- `r_cur = cur.loc[cur["tipo"]=="ganho","valor"].sum()`. -/
def receitaTotal (l : List Tx) : ℚ := ((l.filter fun x => x.tipo == "ganho").map fun x => x.valor).sum

/-- `g_cur = cur.loc[cur["tipo"]=="gasto","valor"].sum()`. -/
def despesaTotal (l : List Tx) : ℚ := ((l.filter fun x => x.tipo == "gasto").map fun x => x.valor).sum

/-- `s_cur = r_cur - g_cur`. -/
def saldoTotal (l : List Tx) : ℚ := receitaTotal l - despesaTotal l

/-- The signed contribution of one row to the balance. -/
def signedValor (x : Tx) : ℚ :=
  if x.tipo == "ganho" then x.valor else if x.tipo == "gasto" then -x.valor else 0

/-- Descending order on `(categoria, valor)` rows by summed amount, the key of
`df.sort_values("valor", ascending=False)`. -/
def rdesc (a b : String × ℚ) : Prop := b.2 ≤ a.2

instance : DecidableRel rdesc := fun a b => by unfold rdesc; infer_instance

instance : IsTotal (String × ℚ) rdesc := ⟨fun a b => le_total b.2 a.2⟩

instance : IsTrans (String × ℚ) rdesc := ⟨fun _ _ _ h1 h2 => le_trans h2 h1⟩

/-- The date-descending sort step of `_top_n_with_outros`. -/
def sortedByAmount (rows : List (String × ℚ)) : List (String × ℚ) :=
  List.insertionSort rdesc rows

/-- `_top_n_with_outros(df, n)` of `app.py` (lines 371–375): sort descending
by amount; at most `n` rows pass through unchanged, otherwise keep the first
`n` and fold the rest into one `"Outros"` row holding their sum. -/
def top_n_with_outros (rows : List (String × ℚ)) (n : ℕ) : List (String × ℚ) :=
  let sorted := sortedByAmount rows
  if sorted.length ≤ n then sorted
  else sorted.take n ++ [("Outros", ((sorted.drop n).map Prod.snd).sum)]

/-! ## Scanner fidelity checks

The following evaluations were cross-checked against CPython's `re` module on
the source's four patterns; they exercise the backtracking corner cases
(alternation fallback of `DECIMAL_RE`, the optional year group of
`DATE_SLASH_RE` and `MESES_RE`, greedy `\d{1,2}`, word boundaries). -/

example : searchDec "1,234".data = some "1".data := by decide
example : searchDec "..,5".data = some "..,5".data := by decide
example : searchDec "abc123".data = some "123".data := by decide
example : searchDec "1.5".data = some "1".data := by decide
example : searchDec "5.".data = some "5".data := by decide
example : searchDec "1,2345".data = some "1".data := by decide
example : searchDec "9,".data = some "9".data := by decide
example : searchDec ",5".data = some "5".data := by decide
example : searchDec "r$ x 12".data = some "12".data := by decide
example : searchSlash "1/2/3".data = some (1, 2, none) := by decide
example : searchSlash "1/2/12345".data = some (1, 2, none) := by decide
example : searchSlash "12/3".data = some (12, 3, none) := by decide
example : searchSlash "123/4".data = none := by decide
example : searchSlash "1/2/2023a".data = some (1, 2, none) := by decide
example : searchSlash "1/23a".data = none := by decide
example : searchDia "dia 123".data = none := by decide
example : searchDia "media 5".data = none := by decide
example : searchDia "dia  07".data = some 7 := by decide
example : searchMeses "1 de dez de 20234".data = some (1, "dez".data, none) := by decide
example : searchMeses "1 de dedede".data = some (1, "dedede".data, none) := by decide
example : searchMeses "1 de dez9".data = none := by decide
example : searchMeses "2 de maio".data = some (2, "maio".data, none) := by decide
example : searchK "1.5k".data = some "1.5".data := by decide
example : searchK "1.234,56 k".data = some "234,56".data := by decide
example : searchK "2 k!".data = some "2".data := by decide
example : searchK "5ka".data = none := by decide
example : searchK "1,23k".data = some "1,23".data := by decide
example : searchK "1.2.3k".data = some "2.3".data := by decide
example : searchK "1,5 mil".data = none := by decide
example : searchMil "1,5 mil".data = some "1,5".data := by decide

/-! ## Claim theorems -/

/-- C1: `extract_amount` normalizes Brazilian-convention numbers: the
shorthand multiplier (`k`/`mil`) takes precedence over the plain decimal
token (first two conjuncts — a shorthand match yields the token's value times
1000); for the plain decimal token, a comma makes the token normalize by
stripping every `.` and turning the `,` into the decimal point (`brNorm`),
and without a comma the raw digit string is parsed as-is; and in particular
`"37,90" → 37.90`, `"R$ 1.234,56" → 1234.56`, `"5k" → 5000.0`,
`"1,5 mil" → 1500.0`. -/
theorem amount_extractor_normalization :
    (∀ (s g : List Char) (p : ℕ × ℕ), searchK (replaceRS (low s)) = some g →
      pyFloatP (brNorm g) = some p → parseValorChars s = some (ratOfParts p * 1000)) ∧
    (∀ (s g : List Char) (p : ℕ × ℕ), searchK (replaceRS (low s)) = none →
      searchMil (replaceRS (low s)) = some g →
      pyFloatP (brNorm g) = some p → parseValorChars s = some (ratOfParts p * 1000)) ∧
    (∀ (s raw : List Char), searchK (replaceRS (low s)) = none →
      searchMil (replaceRS (low s)) = none → searchDec (replaceRS (low s)) = some raw →
      ',' ∈ raw → parseValorChars s = (pyFloatP (brNorm raw)).map ratOfParts) ∧
    (∀ (s raw : List Char), searchK (replaceRS (low s)) = none →
      searchMil (replaceRS (low s)) = none → searchDec (replaceRS (low s)) = some raw →
      ',' ∉ raw → parseValorChars s = (pyFloatP raw).map ratOfParts) ∧
    parse_valor "37,90" = some (379 / 10) ∧
    parse_valor "R$ 1.234,56" = some (123456 / 100) ∧
    parse_valor "5k" = some 5000 ∧
    parse_valor "1,5 mil" = some 1500 := by
  refine ⟨?_, ?_, ?_, ?_, ?_, ?_, ?_, ?_⟩
  · intro s g p hK hp
    have hP : parseValorP s = some (p.1 * 1000, p.2) := by
      simp [parseValorP, hK, hp]
    simp [parseValorChars, hP, ratOfParts]
    ring
  · intro s g p hK hM hp
    have hP : parseValorP s = some (p.1 * 1000, p.2) := by
      simp [parseValorP, parseValorMilP, hK, hM, hp]
    simp [parseValorChars, hP, ratOfParts]
    ring
  · intro s raw hK hM hD hc
    simp [parseValorChars, parseValorP, parseValorMilP, parseValorDecP, hK, hM, hD, hc]
    cases pyFloatP (brNorm raw) <;> simp
  · intro s raw hK hM hD hc
    simp [parseValorChars, parseValorP, parseValorMilP, parseValorDecP, hK, hM, hD, hc]
    cases pyFloatP raw <;> simp [ratOfParts]
  · have h : parseValorP "37,90".data = some (3790, 100) := by decide
    simp [parse_valor, parseValorChars, h, ratOfParts]
    norm_num
  · have h : parseValorP "R$ 1.234,56".data = some (123456, 100) := by decide
    simp [parse_valor, parseValorChars, h, ratOfParts]
  · have h : parseValorP "5k".data = some (5000, 1) := by decide
    simp [parse_valor, parseValorChars, h, ratOfParts]
  · have h : parseValorP "1,5 mil".data = some (15000, 10) := by decide
    simp [parse_valor, parseValorChars, h, ratOfParts]
    norm_num

/-- Witness for C1: the hypotheses of each universally quantified conjunct are
satisfied at concrete inputs. -/
theorem amount_extractor_normalization_witness :
    parseValorChars "5k".data = some (ratOfParts (5, 1) * 1000) ∧
    parseValorChars "1,5 mil".data = some (ratOfParts (15, 10) * 1000) ∧
    parseValorChars "37,90".data = (pyFloatP (brNorm "37,90".data)).map ratOfParts ∧
    parseValorChars "gastei 1500".data = (pyFloatP "1500".data).map ratOfParts :=
  ⟨amount_extractor_normalization.1 "5k".data "5".data (5, 1) (by decide) (by decide),
   amount_extractor_normalization.2.1 "1,5 mil".data "1,5".data (15, 10) (by decide) (by decide)
     (by decide),
   amount_extractor_normalization.2.2.1 "37,90".data "37,90".data (by decide) (by decide)
     (by decide) (by decide),
   amount_extractor_normalization.2.2.2.1 "gastei 1500".data "1500".data (by decide) (by decide)
     (by decide) (by decide)⟩

/-- C2 counterexample: `resolve_date` is claimed never to fail, but on the
calendar-invalid input `"31/02"` the slash rule matches and
`datetime.date(2024, 2, 31)` raises `ValueError` (modelled by `none`). -/
theorem resolve_date_total_counterexample :
    parse_data "31/02" ⟨2024, 3, 15⟩ = none := by decide

/-- C2 (amended): `resolve_date` returns `today` whenever no date rule
matches, and always returns a date on relative-keyword inputs; but when the
first matching rule carries a calendar-invalid day/month combination the call
raises instead of defaulting — `"31/02"` raises for every reference date. -/
theorem resolve_date_default_amended (s : List Char) (today : Date) :
    (noDateRuleMatch s = true → parseDataChars s today = some today) ∧
    (hasRelative (low s) = true → (parseDataChars s today).isSome = true) ∧
    parseDataChars "31/02".data today = none := by
  refine ⟨?_, ?_, ?_⟩
  · intro h
    unfold noDateRuleMatch at h
    simp only [Bool.and_eq_true, Bool.not_eq_true', Option.isNone_iff_eq_none] at h
    obtain ⟨⟨⟨hrel, hsl⟩, hdia⟩, hmes⟩ := h
    unfold hasRelative at hrel
    simp only [Bool.or_eq_false_iff] at hrel
    obtain ⟨⟨⟨⟨h1, h2⟩, h3⟩, h4⟩, h5⟩ := hrel
    cases hm : searchMeses (low s) with
    | none => simp [parseDataChars, h1, h2, h3, h4, h5, hsl, hdia, hm]
    | some v =>
      obtain ⟨d, nome, oy⟩ := v
      rw [hm] at hmes
      simp only [Option.isNone_iff_eq_none] at hmes
      simp [parseDataChars, h1, h2, h3, h4, h5, hsl, hdia, hm, hmes]
  · intro h
    simp only [parseDataChars]
    split_ifs with h1 h2 h3 h4 <;> simp_all [hasRelative]
  · have h1 : containsWord "hoje".data (low "31/02".data) = false := by decide
    have h2 : containsWord "ontem".data (low "31/02".data) = false := by decide
    have h3 : containsWord "anteontem".data (low "31/02".data) = false := by decide
    have h4 : containsWord "amanhã".data (low "31/02".data) = false := by decide
    have h5 : containsWord "amanha".data (low "31/02".data) = false := by decide
    have hs : searchSlash (low "31/02".data) = some (31, 2, none) := by decide
    have hd : ∀ y, pyDate y 2 31 = none := by
      intro y
      unfold pyDate daysInMonth
      cases isLeap y <;> simp
    simp [parseDataChars, h1, h2, h3, h4, h5, hs, slashYear, hd]

/-- Witness for C2 (amended): the two hypotheses are satisfiable — an input
matching no date rule defaults to `today`, and a relative-keyword input
succeeds. -/
theorem resolve_date_default_amended_witness :
    parseDataChars "nada para ver".data ⟨2024, 3, 15⟩ = some ⟨2024, 3, 15⟩ ∧
    (parseDataChars "gastei 10 ontem".data ⟨2024, 3, 15⟩).isSome = true :=
  ⟨(resolve_date_default_amended "nada para ver".data ⟨2024, 3, 15⟩).1 (by decide),
   (resolve_date_default_amended "gastei 10 ontem".data ⟨2024, 3, 15⟩).2.1 (by decide)⟩

/-- C3: `resolve_date` applies exactly the first matching rule in the order
relative keyword > slash form (with `2000 + yy` for two-digit years and
`today.year` when the year is missing) > `dia D` (current month and year) >
`D de <month-name>` via the `MESES` table > fallback `today`; and the three
quoted evaluations hold. -/
theorem resolve_date_precedence :
    (∀ (t : List Char) (today : Date), containsWord "hoje".data (low t) = true →
      parseDataChars t today = some today) ∧
    (∀ (t : List Char) (today : Date), containsWord "hoje".data (low t) = false →
      containsWord "ontem".data (low t) = true →
      parseDataChars t today = some (prevDay today)) ∧
    (∀ (t : List Char) (today : Date) (d mo : ℕ) (oy : Option ℕ),
      hasRelative (low t) = false → searchSlash (low t) = some (d, mo, oy) →
      parseDataChars t today = pyDate (slashYear today oy) mo d) ∧
    (∀ (today : Date) (yy : ℕ), yy < 100 → slashYear today (some yy) = yy + 2000) ∧
    (∀ today : Date, slashYear today none = today.year) ∧
    (∀ (t : List Char) (today : Date) (d : ℕ),
      hasRelative (low t) = false → searchSlash (low t) = none → searchDia (low t) = some d →
      parseDataChars t today = pyDate today.year today.month d) ∧
    (∀ (t : List Char) (today : Date) (d y mo : ℕ) (nome : List Char),
      hasRelative (low t) = false → searchSlash (low t) = none → searchDia (low t) = none →
      searchMeses (low t) = some (d, nome, some y) → mesesGet nome = some mo →
      parseDataChars t today = pyDate y mo d) ∧
    parse_data "gastei 10 ontem" ⟨2024, 3, 15⟩ = some ⟨2024, 3, 14⟩ ∧
    parse_data "dia 5" ⟨2024, 3, 15⟩ = some ⟨2024, 3, 5⟩ ∧
    (∀ today : Date, parse_data "15 de março de 2023" today = some ⟨2023, 3, 15⟩) := by
  have hrel5 : ∀ t : List Char, hasRelative t = false →
      containsWord "hoje".data t = false ∧ containsWord "ontem".data t = false ∧
      containsWord "anteontem".data t = false ∧ containsWord "amanhã".data t = false ∧
      containsWord "amanha".data t = false := by
    intro t h
    unfold hasRelative at h
    simp only [Bool.or_eq_false_iff] at h
    exact ⟨h.1.1.1.1, h.1.1.1.2, h.1.1.2, h.1.2, h.2⟩
  refine ⟨?_, ?_, ?_, ?_, ?_, ?_, ?_, by decide, by decide, ?_⟩
  · intro t today h
    simp [parseDataChars, h]
  · intro t today h1 h2
    simp [parseDataChars, h1, h2]
  · intro t today d mo oy hr hs
    obtain ⟨h1, h2, h3, h4, h5⟩ := hrel5 _ hr
    simp [parseDataChars, h1, h2, h3, h4, h5, hs]
  · intro today yy h
    simp [slashYear, h]
  · intro today
    simp [slashYear]
  · intro t today d hr hs hd
    obtain ⟨h1, h2, h3, h4, h5⟩ := hrel5 _ hr
    simp [parseDataChars, h1, h2, h3, h4, h5, hs, hd]
  · intro t today d y mo nome hr hs hd hm hg
    obtain ⟨h1, h2, h3, h4, h5⟩ := hrel5 _ hr
    simp [parseDataChars, h1, h2, h3, h4, h5, hs, hd, hm, hg]
  · intro today
    have h1 : containsWord "hoje".data (low "15 de março de 2023".data) = false := by decide
    have h2 : containsWord "ontem".data (low "15 de março de 2023".data) = false := by decide
    have h3 : containsWord "anteontem".data (low "15 de março de 2023".data) = false := by decide
    have h4 : containsWord "amanhã".data (low "15 de março de 2023".data) = false := by decide
    have h5 : containsWord "amanha".data (low "15 de março de 2023".data) = false := by decide
    have hs : searchSlash (low "15 de março de 2023".data) = none := by decide
    have hd : searchDia (low "15 de março de 2023".data) = none := by decide
    have hm : searchMeses (low "15 de março de 2023".data) = some (15, "março".data, some 2023) := by
      decide
    have hg : mesesGet "março".data = some 3 := by decide
    have hp : pyDate 2023 3 15 = some ⟨2023, 3, 15⟩ := by decide
    simp [parse_data, parseDataChars, h1, h2, h3, h4, h5, hs, hd, hm, hg, hp]

/-- Witness for C3: each hypothesis-bearing conjunct applied at a concrete
input (note the first input contains both `ontem` and a slash date, so the
relative rule really does win). -/
theorem resolve_date_precedence_witness :
    parseDataChars "ontem 01/01".data ⟨2024, 3, 15⟩ = some (prevDay ⟨2024, 3, 15⟩) ∧
    parseDataChars "05/08/24".data ⟨2024, 3, 15⟩ =
      pyDate (slashYear ⟨2024, 3, 15⟩ (some 24)) 8 5 ∧
    slashYear ⟨2024, 3, 15⟩ (some 24) = 24 + 2000 ∧
    parseDataChars "dia 7".data ⟨2024, 3, 15⟩ = pyDate 2024 3 7 ∧
    parseDataChars "2 de maio de 2021".data ⟨2024, 3, 15⟩ = pyDate 2021 5 2 ∧
    parse_data "15 de março de 2023" ⟨1999, 1, 1⟩ = some ⟨2023, 3, 15⟩ :=
  ⟨resolve_date_precedence.2.1 "ontem 01/01".data ⟨2024, 3, 15⟩ (by decide) (by decide),
   resolve_date_precedence.2.2.1 "05/08/24".data ⟨2024, 3, 15⟩ 5 8 (some 24) (by decide)
     (by decide),
   resolve_date_precedence.2.2.2.1 ⟨2024, 3, 15⟩ 24 (by decide),
   resolve_date_precedence.2.2.2.2.2.1 "dia 7".data ⟨2024, 3, 15⟩ 7 (by decide) (by decide)
     (by decide),
   resolve_date_precedence.2.2.2.2.2.2.1 "2 de maio de 2021".data ⟨2024, 3, 15⟩ 2 2021 5
     "maio".data (by decide) (by decide) (by decide) (by decide) (by decide),
   resolve_date_precedence.2.2.2.2.2.2.2.2.2 ⟨1999, 1, 1⟩⟩

/-- C4: `classify_type` is total (every string maps to one of the three
variants), the three verb lexicons are checked in the order expense → income
→ investment with the first matching set winning, a minus sign right before a
digit (the `\-\s?\d` heuristic) classifies as expense when no verb cue
matched, and otherwise the result is income. -/
theorem classify_type_policy (s : String) :
    (detect_tipo s = .gasto ∨ detect_tipo s = .ganho ∨ detect_tipo s = .investimento) ∧
    (hasAnyVerb VERBOS_GASTO (low s.data) = true → detect_tipo s = .gasto) ∧
    (hasAnyVerb VERBOS_GASTO (low s.data) = false →
      hasAnyVerb VERBOS_GANHO (low s.data) = true → detect_tipo s = .ganho) ∧
    (hasAnyVerb VERBOS_GASTO (low s.data) = false →
      hasAnyVerb VERBOS_GANHO (low s.data) = false →
      hasAnyVerb VERBOS_INVEST (low s.data) = true → detect_tipo s = .investimento) ∧
    (hasAnyVerb VERBOS_GASTO (low s.data) = false →
      hasAnyVerb VERBOS_GANHO (low s.data) = false →
      hasAnyVerb VERBOS_INVEST (low s.data) = false →
      minusDigit (low s.data) = true → detect_tipo s = .gasto) ∧
    (hasAnyVerb VERBOS_GASTO (low s.data) = false →
      hasAnyVerb VERBOS_GANHO (low s.data) = false →
      hasAnyVerb VERBOS_INVEST (low s.data) = false →
      minusDigit (low s.data) = false → detect_tipo s = .ganho) := by
  refine ⟨?_, ?_, ?_, ?_, ?_, ?_⟩
  · simp only [detect_tipo, detectTipoChars]
    split_ifs <;> simp
  · intro h; simp [detect_tipo, detectTipoChars, h]
  · intro h1 h2; simp [detect_tipo, detectTipoChars, h1, h2]
  · intro h1 h2 h3; simp [detect_tipo, detectTipoChars, h1, h2, h3]
  · intro h1 h2 h3 h4; simp [detect_tipo, detectTipoChars, h1, h2, h3, h4]
  · intro h1 h2 h3 h4; simp [detect_tipo, detectTipoChars, h1, h2, h3, h4]

/-- Witness for C4: each branch of the policy exercised on a concrete
message. -/
theorem classify_type_policy_witness :
    detect_tipo "gastei 37,90 no mercado" = .gasto ∧
    detect_tipo "recebi 1500 de salário" = .ganho ∧
    detect_tipo "apliquei 200 em cdb" = .investimento ∧
    detect_tipo "- 50 padaria" = .gasto ∧
    detect_tipo "50 padaria" = .ganho :=
  ⟨(classify_type_policy "gastei 37,90 no mercado").2.1 (by decide),
   (classify_type_policy "recebi 1500 de salário").2.2.1 (by decide) (by decide),
   (classify_type_policy "apliquei 200 em cdb").2.2.2.1 (by decide) (by decide) (by decide),
   (classify_type_policy "- 50 padaria").2.2.2.2.1 (by decide) (by decide) (by decide)
     (by decide),
   (classify_type_policy "50 padaria").2.2.2.2.2 (by decide) (by decide) (by decide)
     (by decide)⟩

/-- C5: `map_category` always succeeds: it first scans the keyword table of
the classified type in insertion order (`lookupSub` returns the first
substring match), falls back to the merged union of the three tables — so
cross-type leakage happens, e.g. the income-classified message
`"recebi 50 no mercado"` receives the expense category `"Mercado"` — and
returns the sentinel `"outros"` when no keyword of any table occurs. -/
theorem map_category_policy (s : String) (tipo : Tipo) :
    (∀ v : String, lookupSub (tableOf tipo) (low s.data) = some v → map_category s tipo = v) ∧
    (lookupSub (tableOf tipo) (low s.data) = none →
      ∀ v : String, lookupSub UNION_TABLE (low s.data) = some v → map_category s tipo = v) ∧
    (lookupSub (tableOf tipo) (low s.data) = none →
      lookupSub UNION_TABLE (low s.data) = none → map_category s tipo = "outros") ∧
    detect_tipo "recebi 50 no mercado" = .ganho ∧
    map_category "recebi 50 no mercado" .ganho = "Mercado" := by
  refine ⟨?_, ?_, ?_, by decide, by decide⟩
  · intro v h; simp [map_category, detectCategoriaChars, h]
  · intro h1 v h2; simp [map_category, detectCategoriaChars, h1, h2]
  · intro h1 h2; simp [map_category, detectCategoriaChars, h1, h2]

/-- Witness for C5: the type-table path, the union-fallback path and the
`"outros"` path, each at a concrete input. -/
theorem map_category_policy_witness :
    map_category "gastei 20 no mercado" .gasto = "Mercado" ∧
    map_category "recebi 50 no mercado" .ganho = "Mercado" ∧
    map_category "nada" .gasto = "outros" :=
  ⟨(map_category_policy "gastei 20 no mercado" .gasto).1 "Mercado" (by decide),
   (map_category_policy "recebi 50 no mercado" .ganho).2.1 (by decide) "Mercado" (by decide),
   (map_category_policy "nada" .gasto).2.2.1 (by decide) (by decide)⟩

theorem mem_undoStore {x : Parsed} {l : List Parsed} (h : x ∈ undoStore l) : x ∈ l := by
  unfold undoStore at h
  split at h
  · exact h
  · exact (List.perm_insertionSort parsedLe l).subset ((List.dropLast_sublist _).subset h)

/-- C6: when no amount pattern matches, `extract_amount` returns `None`
(first conjunct — never a default of zero); a message whose interpretation
carries a null amount leaves the pending slot exactly as it was, so from Idle
the workflow stays Idle (second conjunct); and in every reachable state a
stored or committed candidate has a non-null amount — a null-amount candidate
is never stored and never committed (third conjunct). -/
theorem null_amount_blocks_commit :
    (∀ t : List Char, searchK (replaceRS (low t)) = none →
      searchMil (replaceRS (low t)) = none → searchDec (replaceRS (low t)) = none →
      parseValorChars t = none) ∧
    (∀ (today : Date) (st : ChatState) (s : List Char) (P : Parsed),
      parseMessageChars s today = some P → P.value = none →
      (stepA today st (.msg s)).pending = st.pending) ∧
    (∀ (today : Date) (st : ChatState), Reachable today st →
      (∀ c : Parsed, st.pending = some c → c.value ≠ none) ∧
      (∀ c ∈ st.store, c.value ≠ none)) := by
  refine ⟨?_, ?_, ?_⟩
  · intro t h1 h2 h3
    simp [parseValorChars, parseValorP, parseValorMilP, parseValorDecP, h1, h2, h3]
  · intro today st s P hP hv
    simp only [stepA]
    split_ifs with h1 h2 h3
    · rfl
    · rfl
    · rfl
    · simp [hP, hv]
  · intro today st h
    induction h with
    | init =>
      exact ⟨(fun c hc => by cases hc), fun c hc => by cases hc⟩
    | @step st' a hst ih =>
      obtain ⟨ihp, ihs⟩ := ih
      cases a with
      | confirm =>
        cases hp : st'.pending with
        | none =>
          have he : stepA today st' .confirm = st' := by simp [stepA, hp]
          rw [he]; exact ⟨ihp, ihs⟩
        | some c =>
          have he : stepA today st' .confirm = ⟨none, st'.store ++ [c]⟩ := by simp [stepA, hp]
          rw [he]
          refine ⟨(fun c' hc' => by cases hc'), fun c' hc' => ?_⟩
          rcases List.mem_append.1 hc' with hc' | hc'
          · exact ihs c' hc'
          · rw [List.mem_singleton.1 hc']
            exact ihp c hp
      | cancel =>
        cases hp : st'.pending with
        | none =>
          have he : stepA today st' .cancel = st' := by simp [stepA, hp]
          rw [he]; exact ⟨ihp, ihs⟩
        | some c =>
          have he : stepA today st' .cancel = ⟨none, st'.store⟩ := by simp [stepA, hp]
          rw [he]
          exact ⟨(fun c' hc' => by cases hc'), fun c' hc' => ihs c' hc'⟩
      | msg s =>
        by_cases h1 : s = []
        · have he : stepA today st' (.msg s) = st' := by simp [stepA, h1]
          rw [he]; exact ⟨ihp, ihs⟩
        · by_cases h2 : isSpecialCmd s = true
          · by_cases h3 : isUndoCmd s = true
            · have he : stepA today st' (.msg s) = ⟨st'.pending, undoStore st'.store⟩ := by
                simp [stepA, h1, h2, h3]
              rw [he]
              exact ⟨fun c hc => ihp c hc, fun c hc => ihs c (mem_undoStore hc)⟩
            · have he : stepA today st' (.msg s) = st' := by simp [stepA, h1, h2, h3]
              rw [he]; exact ⟨ihp, ihs⟩
          · cases hP : parseMessageChars s today with
            | none =>
              have he : stepA today st' (.msg s) = st' := by simp [stepA, h1, h2, hP]
              rw [he]; exact ⟨ihp, ihs⟩
            | some P =>
              by_cases hv : P.value = none
              · have he : stepA today st' (.msg s) = st' := by simp [stepA, h1, h2, hP, hv]
                rw [he]; exact ⟨ihp, ihs⟩
              · have he : stepA today st' (.msg s) = ⟨some P, st'.store⟩ := by
                  simp [stepA, h1, h2, hP, hv]
                rw [he]
                refine ⟨fun c hc => ?_, fun c hc => ihs c hc⟩
                cases hc
                exact hv

/-- Witness for C6: a concrete message with no amount pattern, interpreted
from the Idle state, leaves the workflow Idle, and the initial state
satisfies the reachable-state invariant. -/
theorem null_amount_blocks_commit_witness :
    parseValorChars "gastei muito hoje".data = none ∧
    (stepA ⟨2024, 3, 15⟩ ⟨none, []⟩ (.msg "gastei muito hoje".data)).pending =
      (⟨none, []⟩ : ChatState).pending ∧
    (∀ c : Parsed, (⟨none, []⟩ : ChatState).pending = some c → c.value ≠ none) :=
  ⟨null_amount_blocks_commit.1 "gastei muito hoje".data (by decide) (by decide) (by decide),
   null_amount_blocks_commit.2.1 ⟨2024, 3, 15⟩ ⟨none, []⟩ "gastei muito hoje".data
     ⟨⟨2024, 3, 15⟩, .gasto, none, "Contas", "gastei muito hoje".data⟩ (by decide) rfl,
   (null_amount_blocks_commit.2.2 ⟨2024, 3, 15⟩ ⟨none, []⟩ Reachable.init).1⟩

/-- C7 counterexample: with two stored rows — row A (date 2024-03-10, created
first, `created_at = 0`) and row B (date 2024-03-01, created last,
`created_at = 1`) — "undo last" must remove B, the row with the latest
`created_at`.  But `_undo_last` drops the last row of the DATE-ordered frame,
so it deletes A and keeps B: the surviving row is the latest-created one. -/
theorem undo_last_counterexample :
    ((undo_last [⟨⟨2024, 3, 10⟩, "gasto", 50, "Mercado", 0⟩,
        ⟨⟨2024, 3, 1⟩, "ganho", 30, "Salário", 1⟩]).1.map fun x => x.createdAt) = [1] ∧
    ([1] : List ℕ) ≠ [0] := by
  exact ⟨by decide, by decide⟩

theorem sorted_all_le_getLast {α : Type} {r : α → α → Prop} (hrefl : ∀ a : α, r a a) :
    ∀ (l : List α) (hne : l ≠ []), l.Sorted r → ∀ x ∈ l, r x (l.getLast hne) := by
  intro l
  induction l with
  | nil => intro hne; exact absurd rfl hne
  | cons a t ih =>
    intro hne hs x hx
    cases t with
    | nil =>
      have hx' : x = a := by simpa using hx
      subst hx'
      exact hrefl x
    | cons b t2 =>
      have hne2 : b :: t2 ≠ [] := by simp
      rw [List.getLast_cons hne2]
      rw [List.sorted_cons] at hs
      rcases List.mem_cons.1 hx with hx' | hx'
      · subst hx'
        exact hs.1 _ (List.getLast_mem hne2)
      · exact ih hne2 hs.2 x hx'

/-- C7 (amended): "undo last" removes exactly one row, namely the one in the
last position of the date-ascending ordering of the owner's rows (a row of
maximal transaction DATE — not the latest `created_at`), leaving the rest as
a set unchanged; with zero rows it reports a no-op, performing no deletion
and raising no error. -/
theorem undo_last_amended (l : List Tx) (hne : l ≠ []) :
    undo_last ([] : List Tx) = ([], false) ∧
    (undo_last l).2 = true ∧
    ∃ m : Tx, m ∈ l ∧ (∀ x ∈ l, dateLe x.data m.data) ∧
      ((undo_last l).1 ++ [m]).Perm l := by
  have hperm : (loadStore l).Perm l := List.perm_insertionSort txLe l
  have hne2 : loadStore l ≠ [] := by
    intro h0
    rw [h0] at hperm
    exact hne hperm.symm.eq_nil
  refine ⟨by simp [undo_last], by simp [undo_last, hne], ?_⟩
  refine ⟨(loadStore l).getLast hne2, hperm.subset (List.getLast_mem hne2), ?_, ?_⟩
  · intro x hx
    have hx2 : x ∈ loadStore l := hperm.mem_iff.2 hx
    exact @sorted_all_le_getLast Tx txLe (fun a => dateLe_refl a.data) _ hne2
      (List.sorted_insertionSort txLe l) x hx2
  · have h1 : (undo_last l).1 = (loadStore l).dropLast := by simp [undo_last, hne]
    rw [h1, List.dropLast_concat_getLast hne2]
    exact hperm

/-- Witness for C7 (amended): applied to a concrete two-row store. -/
theorem undo_last_amended_witness :
    undo_last ([] : List Tx) = ([], false) ∧
    (undo_last [⟨⟨2024, 3, 10⟩, "gasto", 50, "Mercado", 0⟩,
        ⟨⟨2024, 3, 1⟩, "ganho", 30, "Salário", 1⟩]).2 = true ∧
    ∃ m : Tx, m ∈ [⟨⟨2024, 3, 10⟩, "gasto", 50, "Mercado", 0⟩,
        ⟨⟨2024, 3, 1⟩, "ganho", 30, "Salário", 1⟩] ∧
      (∀ x ∈ [(⟨⟨2024, 3, 10⟩, "gasto", 50, "Mercado", 0⟩ : Tx),
          ⟨⟨2024, 3, 1⟩, "ganho", 30, "Salário", 1⟩], dateLe x.data m.data) ∧
      ((undo_last [⟨⟨2024, 3, 10⟩, "gasto", 50, "Mercado", 0⟩,
          ⟨⟨2024, 3, 1⟩, "ganho", 30, "Salário", 1⟩]).1 ++ [m]).Perm
        [⟨⟨2024, 3, 10⟩, "gasto", 50, "Mercado", 0⟩,
          ⟨⟨2024, 3, 1⟩, "ganho", 30, "Salário", 1⟩] :=
  undo_last_amended [⟨⟨2024, 3, 10⟩, "gasto", 50, "Mercado", 0⟩,
    ⟨⟨2024, 3, 1⟩, "ganho", 30, "Salário", 1⟩] (by simp)

/-- C8 counterexample: from Idle, "gastei 10 no mercado hoje" makes the
workflow AwaitingConfirmation with an expense candidate pending; the next
free-text message "recebi 2000 de salário hoje" is neither a confirm nor a
cancel, yet afterwards the pending candidate is a different (income) one:
the second message silently overwrote it. -/
theorem pending_overwrite_counterexample :
    ((stepA ⟨2024, 3, 15⟩ ⟨none, []⟩ (.msg "gastei 10 no mercado hoje".data)).pending.map
      fun p => p.tipo) = some .gasto ∧
    ((stepA ⟨2024, 3, 15⟩ (stepA ⟨2024, 3, 15⟩ ⟨none, []⟩
        (.msg "gastei 10 no mercado hoje".data))
        (.msg "recebi 2000 de salário hoje".data)).pending.map fun p => p.tipo) =
      some .ganho ∧
    (stepA ⟨2024, 3, 15⟩ (stepA ⟨2024, 3, 15⟩ ⟨none, []⟩
        (.msg "gastei 10 no mercado hoje".data))
        (.msg "recebi 2000 de salário hoje".data)).pending ≠
      (stepA ⟨2024, 3, 15⟩ ⟨none, []⟩ (.msg "gastei 10 no mercado hoje".data)).pending := by
  have h1 : ((stepA ⟨2024, 3, 15⟩ ⟨none, []⟩
      (.msg "gastei 10 no mercado hoje".data)).pending.map fun p => p.tipo) = some .gasto := by
    decide
  have h2 : ((stepA ⟨2024, 3, 15⟩ (stepA ⟨2024, 3, 15⟩ ⟨none, []⟩
      (.msg "gastei 10 no mercado hoje".data))
      (.msg "recebi 2000 de salário hoje".data)).pending.map fun p => p.tipo) =
      some .ganho := by decide
  refine ⟨h1, h2, ?_⟩
  intro h
  rw [h, h1] at h2
  cases h2

/-- C8 (amended): while AwaitingConfirmation, the pending slot becomes empty
only through an explicit confirm or cancel; but a new non-special free-text
message whose amount parses does not leave the pending candidate alone — it
silently REPLACES it with the newly interpreted candidate. -/
theorem pending_overwrite_amended (today : Date) (st : ChatState) :
    (∀ (a : Act) (c : Parsed), st.pending = some c → (stepA today st a).pending = none →
      a = .confirm ∨ a = .cancel) ∧
    (∀ (s : List Char) (P : Parsed), s ≠ [] → isSpecialCmd s = false →
      parseMessageChars s today = some P → P.value ≠ none →
      (stepA today st (.msg s)).pending = some P) := by
  constructor
  · intro a c hc hn
    cases a with
    | confirm => exact Or.inl rfl
    | cancel => exact Or.inr rfl
    | msg s =>
      exfalso
      simp only [stepA] at hn
      split_ifs at hn with h1 h2 h3
      · rw [hc] at hn; cases hn
      · rw [hc] at hn; cases hn
      · rw [hc] at hn; cases hn
      · cases hP : parseMessageChars s today with
        | none => rw [hP, hc] at hn; cases hn
        | some P =>
          rw [hP] at hn
          by_cases hv : P.value = none
          · simp only [hv, if_true] at hn
            rw [hc] at hn; cases hn
          · simp only [if_neg hv] at hn
            cases hn
  · intro s P h1 h2 hP hv
    simp [stepA, h1, h2, hP, hv]

/-- Witness for C8 (amended): a pending expense candidate really is replaced
by the candidate of a later message, and the clear-only-by-confirm/cancel
conjunct applied at a state with a pending candidate. -/
theorem pending_overwrite_amended_witness :
    (stepA ⟨2024, 3, 15⟩
        ⟨some ⟨⟨2024, 3, 15⟩, .gasto,
          parseValorChars "gastei 10 no mercado hoje".data, "Mercado",
          "gastei 10 no mercado hoje".data⟩, []⟩
        (.msg "recebi 2000 de salário hoje".data)).pending =
      some ⟨⟨2024, 3, 15⟩, .ganho, parseValorChars "recebi 2000 de salário hoje".data,
        "Salário", "recebi 2000 de salário hoje".data⟩ ∧
    (Act.confirm = Act.confirm ∨ Act.confirm = Act.cancel) :=
  ⟨(pending_overwrite_amended ⟨2024, 3, 15⟩
      ⟨some ⟨⟨2024, 3, 15⟩, .gasto, parseValorChars "gastei 10 no mercado hoje".data,
        "Mercado", "gastei 10 no mercado hoje".data⟩, []⟩).2
      "recebi 2000 de salário hoje".data
      ⟨⟨2024, 3, 15⟩, .ganho, parseValorChars "recebi 2000 de salário hoje".data,
        "Salário", "recebi 2000 de salário hoje".data⟩
      (by decide) (by decide) rfl (by decide),
   (pending_overwrite_amended ⟨2024, 3, 15⟩
      ⟨some ⟨⟨2024, 3, 15⟩, .gasto, parseValorChars "gastei 10 no mercado hoje".data,
        "Mercado", "gastei 10 no mercado hoje".data⟩, []⟩).1
      .confirm
      ⟨⟨2024, 3, 15⟩, .gasto, parseValorChars "gastei 10 no mercado hoje".data,
        "Mercado", "gastei 10 no mercado hoje".data⟩
      rfl rfl⟩

theorem receita_append (a b : List Tx) :
    receitaTotal (a ++ b) = receitaTotal a + receitaTotal b := by
  simp [receitaTotal, List.filter_append]

theorem despesa_append (a b : List Tx) :
    despesaTotal (a ++ b) = despesaTotal a + despesaTotal b := by
  simp [despesaTotal, List.filter_append]

theorem saldo_eq_signed_sum (l : List Tx) : saldoTotal l = (l.map signedValor).sum := by
  induction l with
  | nil => simp [saldoTotal, receitaTotal, despesaTotal]
  | cons x t ih =>
    simp only [saldoTotal, receitaTotal, despesaTotal, List.filter_cons, List.map_cons,
      List.sum_cons] at *
    by_cases hg : (x.tipo == "ganho") = true
    · have hg2 : (x.tipo == "gasto") = false := by
        simp only [beq_iff_eq] at hg ⊢
        rw [hg]; simp
      simp only [hg, hg2, if_true, if_false, Bool.false_eq_true, List.sum_cons, signedValor]
      rw [← ih]
      simp only [List.map_cons, List.sum_cons]
      ring
    · by_cases hd : (x.tipo == "gasto") = true
      · simp only [hg, hd, if_true, if_false, Bool.false_eq_true, List.sum_cons, signedValor]
        rw [← ih]
        simp only [List.map_cons, List.sum_cons]
        ring
      · simp only [hg, hd, Bool.false_eq_true, if_false, signedValor]
        rw [← ih]
        ring

/-- C9: the aggregation filters the history to dates in
`[period.start, period.end]` inclusive (first conjunct); `income_total` sums
exactly the income amounts, `expense_total` the expense amounts,
`balance = income_total − expense_total`, which equals the signed sum in
which investment rows contribute zero (second and third conjuncts);
appending an investment row changes none of the three KPIs (fourth conjunct);
and when no transaction falls in the period all three KPIs are zero (last
conjunct). -/
theorem aggregation_kpis (h : List Tx) (s e : Date) :
    (∀ x : Tx, x ∈ curTx h s e ↔ x ∈ h ∧ dateLe s x.data ∧ dateLe x.data e) ∧
    saldoTotal (curTx h s e) = receitaTotal (curTx h s e) - despesaTotal (curTx h s e) ∧
    saldoTotal (curTx h s e) = ((curTx h s e).map signedValor).sum ∧
    (∀ x : Tx, x.tipo = "investimento" →
      receitaTotal (curTx (h ++ [x]) s e) = receitaTotal (curTx h s e) ∧
      despesaTotal (curTx (h ++ [x]) s e) = despesaTotal (curTx h s e) ∧
      saldoTotal (curTx (h ++ [x]) s e) = saldoTotal (curTx h s e)) ∧
    ((∀ x ∈ h, inPeriod s e x = false) →
      receitaTotal (curTx h s e) = 0 ∧ despesaTotal (curTx h s e) = 0 ∧
      saldoTotal (curTx h s e) = 0) := by
  refine ⟨?_, rfl, saldo_eq_signed_sum _, ?_, ?_⟩
  · intro x
    simp [curTx, List.mem_filter, inPeriod, and_assoc]
  · intro x hx
    have hcur : curTx (h ++ [x]) s e = curTx h s e ++ (if inPeriod s e x then [x] else []) := by
      simp only [curTx, List.filter_append]
      congr 1
      by_cases hp : inPeriod s e x = true <;> simp [hp]
    have hre : receitaTotal (if inPeriod s e x then [x] else []) = 0 := by
      split
      · simp [receitaTotal, hx]
      · simp [receitaTotal]
    have hde : despesaTotal (if inPeriod s e x then [x] else []) = 0 := by
      split
      · simp [despesaTotal, hx]
      · simp [despesaTotal]
    refine ⟨?_, ?_, ?_⟩
    · rw [hcur, receita_append, hre, add_zero]
    · rw [hcur, despesa_append, hde, add_zero]
    · simp only [saldoTotal]
      rw [hcur, receita_append, despesa_append, hre, hde, add_zero, add_zero]
  · intro hout
    have hnil : curTx h s e = [] := by
      simp only [curTx]
      rw [List.filter_eq_nil_iff]
      intro x hx
      simp [hout x hx]
    simp [hnil, receitaTotal, despesaTotal, saldoTotal]

/-- Witness for C9: the hypotheses exercised at concrete inputs — an
investment row appended to a one-row history leaves the KPIs unchanged, and a
history entirely outside the period yields all-zero KPIs. -/
theorem aggregation_kpis_witness :
    (receitaTotal (curTx ([⟨⟨2024, 3, 10⟩, "ganho", 1500, "Salário", 0⟩] ++
        [⟨⟨2024, 3, 11⟩, "investimento", 200, "CDB", 1⟩]) ⟨2024, 3, 1⟩ ⟨2024, 3, 31⟩) =
      receitaTotal (curTx [⟨⟨2024, 3, 10⟩, "ganho", 1500, "Salário", 0⟩]
        ⟨2024, 3, 1⟩ ⟨2024, 3, 31⟩)) ∧
    (receitaTotal (curTx [(⟨⟨2024, 5, 10⟩, "ganho", 1500, "Salário", 0⟩ : Tx)]
        ⟨2024, 3, 1⟩ ⟨2024, 3, 31⟩) = 0 ∧
      despesaTotal (curTx [(⟨⟨2024, 5, 10⟩, "ganho", 1500, "Salário", 0⟩ : Tx)]
        ⟨2024, 3, 1⟩ ⟨2024, 3, 31⟩) = 0 ∧
      saldoTotal (curTx [(⟨⟨2024, 5, 10⟩, "ganho", 1500, "Salário", 0⟩ : Tx)]
        ⟨2024, 3, 1⟩ ⟨2024, 3, 31⟩) = 0) :=
  ⟨((aggregation_kpis [⟨⟨2024, 3, 10⟩, "ganho", 1500, "Salário", 0⟩]
      ⟨2024, 3, 1⟩ ⟨2024, 3, 31⟩).2.2.2.1 ⟨⟨2024, 3, 11⟩, "investimento", 200, "CDB", 1⟩
      rfl).1,
   (aggregation_kpis [⟨⟨2024, 5, 10⟩, "ganho", 1500, "Salário", 0⟩]
      ⟨2024, 3, 1⟩ ⟨2024, 3, 31⟩).2.2.2.2 (by decide)⟩

/-- C10: for more than six distinct per-category rows the breakdown has
exactly 7 rows; the row total is conserved (`Σ output = Σ input`); the last
row is the synthetic `"Outros"` row (the spec renders it "Others") holding
the sum of the 7th-and-beyond amounts of the descending order; and the first
six rows are sorted descending by amount. -/
theorem category_breakdown_topn (rows : List (String × ℚ)) (hlen : 6 < rows.length) :
    (top_n_with_outros rows 6).length = 7 ∧
    ((top_n_with_outros rows 6).map Prod.snd).sum = (rows.map Prod.snd).sum ∧
    (top_n_with_outros rows 6).getLast? =
      some ("Outros", (((sortedByAmount rows).drop 6).map Prod.snd).sum) ∧
    List.Sorted rdesc ((top_n_with_outros rows 6).take 6) := by
  have hperm : (sortedByAmount rows).Perm rows := List.perm_insertionSort rdesc rows
  have hslen : (sortedByAmount rows).length = rows.length := hperm.length_eq
  have hgt : ¬(sortedByAmount rows).length ≤ 6 := by omega
  have htop : top_n_with_outros rows 6 =
      (sortedByAmount rows).take 6 ++
        [("Outros", (((sortedByAmount rows).drop 6).map Prod.snd).sum)] := by
    simp [top_n_with_outros, hgt]
  have htake6 : ((sortedByAmount rows).take 6).length = 6 := by
    rw [List.length_take]; omega
  refine ⟨?_, ?_, ?_, ?_⟩
  · rw [htop]
    simp [htake6]
  · rw [htop]
    have hsum : ((sortedByAmount rows).map Prod.snd).sum = (rows.map Prod.snd).sum :=
      (hperm.map Prod.snd).sum_eq
    calc ((((sortedByAmount rows).take 6) ++
          [("Outros", (((sortedByAmount rows).drop 6).map Prod.snd).sum)]).map Prod.snd).sum
        = (((sortedByAmount rows).take 6).map Prod.snd).sum +
            (((sortedByAmount rows).drop 6).map Prod.snd).sum := by
          simp
      _ = ((((sortedByAmount rows).take 6) ++ ((sortedByAmount rows).drop 6)).map Prod.snd).sum := by
          simp
      _ = (rows.map Prod.snd).sum := by
          rw [List.take_append_drop]
          exact hsum
  · rw [htop]
    exact List.getLast?_concat _
  · rw [htop, List.take_left' htake6]
    exact List.Pairwise.sublist (List.take_sublist 6 _) (List.sorted_insertionSort rdesc rows)

/-- Witness for C10: applied to a concrete table of seven categories. -/
theorem category_breakdown_topn_witness :
    (top_n_with_outros [("A", 70), ("B", 60), ("C", 50), ("D", 40), ("E", 30), ("F", 20),
        ("G", 10)] 6).length = 7 ∧
    ((top_n_with_outros [("A", 70), ("B", 60), ("C", 50), ("D", 40), ("E", 30), ("F", 20),
        ("G", 10)] 6).map Prod.snd).sum =
      ([("A", (70 : ℚ)), ("B", 60), ("C", 50), ("D", 40), ("E", 30), ("F", 20),
        ("G", 10)].map Prod.snd).sum ∧
    (top_n_with_outros [("A", 70), ("B", 60), ("C", 50), ("D", 40), ("E", 30), ("F", 20),
        ("G", 10)] 6).getLast? =
      some ("Outros", (((sortedByAmount [("A", 70), ("B", 60), ("C", 50), ("D", 40), ("E", 30),
        ("F", 20), ("G", 10)]).drop 6).map Prod.snd).sum) ∧
    List.Sorted rdesc ((top_n_with_outros [("A", 70), ("B", 60), ("C", 50), ("D", 40), ("E", 30),
        ("F", 20), ("G", 10)] 6).take 6) :=
  category_breakdown_topn
    [("A", 70), ("B", 60), ("C", 50), ("D", 40), ("E", 30), ("F", 20), ("G", 10)] (by simp)

end FinanceAI
